import Mathlib

/-!
Verification of the local-ollama-gui backend gateway (`src/main.py`).

The development shallowly embeds the two components of the program:

* the Model Runner Client — `call_ollama_generate`, `call_ollama_multimodal`,
  `list_models`, `download_model` — with the upstream HTTP backend abstracted
  as an explicit outcome (a delivered response or a transport-level failure);
* the Conversation Store and its handlers — `start_conversation`,
  `add_message`, `get_conversation` — with the process-wide dict modelled as
  an association list in insertion order.

Python dynamic values appearing in responses are modelled by a small `Json`
type; `requests.Response.raise_for_status` raises exactly for status codes in
[400, 600), which `statusRaises` reproduces.
-/

/-- A single quote character, used when reproducing Python string formatting. -/
def pyQuote : String := String.singleton (Char.ofNat 39)

/-- Python/JSON values as they occur in parsed response bodies. -/
inductive Json where
  | null : Json
  | str (s : String) : Json
  | arr (xs : List Json) : Json
  | obj (fields : List (String × Json)) : Json

/-- Key lookup in a dict body, first match (dict keys are unique in Python). -/
def lookupField : List (String × Json) → String → Option Json
  | [], _ => none
  | (k, v) :: rest, key => if k = key then some v else lookupField rest key

/-- Membership test / indexing on a dict-shaped value (`"k" in d` / `d["k"]`).
Non-dict values have no fields. -/
def Json.getField : Json → String → Option Json
  | Json.obj fields, k => lookupField fields k
  | _, _ => none

/-- Python `dict.get(k, default)`. -/
def Json.getD (j : Json) (k : String) (default : Json) : Json :=
  (j.getField k).getD default

mutual

/-- Python `str(...)` on a parsed JSON body (dicts print with single-quoted
keys and string values, as CPython does). -/
def Json.stringify : Json → String
  | Json.null => "None"
  | Json.str s => pyQuote ++ s ++ pyQuote
  | Json.arr xs => "[" ++ stringifyArr xs ++ "]"
  | Json.obj fs => "\x7b" ++ stringifyObj fs ++ "\x7d"

/-- Comma-separated rendering of a list body. -/
def stringifyArr : List Json → String
  | [] => ""
  | [x] => Json.stringify x
  | x :: y :: rest => Json.stringify x ++ ", " ++ stringifyArr (y :: rest)

/-- Comma-separated rendering of dict entries. -/
def stringifyObj : List (String × Json) → String
  | [] => ""
  | [(k, v)] => pyQuote ++ k ++ pyQuote ++ ": " ++ Json.stringify v
  | (k, v) :: y :: rest =>
      pyQuote ++ k ++ pyQuote ++ ": " ++ Json.stringify v ++ ", " ++ stringifyObj (y :: rest)

end

/-- An HTTP response as delivered by `requests`: status code, raw body text
(`response.text`) and parsed body (`response.json()`). -/
structure HttpResponse where
  status : Nat
  text : String
  json : Json

/-- Outcome of one outbound `requests` call: either a response was delivered,
or a transport-level failure (connection refused, timeout, DNS failure)
raised a `RequestException` with no response attached, carrying `str(e)`. -/
inductive UpstreamOutcome where
  | ok (r : HttpResponse) : UpstreamOutcome
  | netErr (msg : String) : UpstreamOutcome

/-- `fastapi.HTTPException`: a status code and a detail message. -/
structure HTTPError where
  status : Nat
  detail : String
deriving DecidableEq, Repr

/-- `requests.Response.raise_for_status` raises exactly for 4xx/5xx codes. -/
def statusRaises (s : Nat) : Prop := 400 ≤ s ∧ s < 600

instance (s : Nat) : Decidable (statusRaises s) := by
  unfold statusRaises; infer_instance

/-- The detail prefix used by both generation helpers. -/
def commPrefix : String := "Error communicating with Ollama: "

/-- The payload of one text-generation request (`/api/generate`):
non-streaming, 120-second timeout. -/
structure GenerateRequest where
  url : String
  model : String
  prompt : String
  stream : Bool
  timeout : Nat
deriving DecidableEq, Repr

/-- The request built by `call_ollama_generate` (main.py lines 70–77). -/
def mkGenerateRequest (model prompt : String) : GenerateRequest :=
  { url := "http://localhost:11434/api/generate"
    model := model
    prompt := prompt
    stream := false
    timeout := 120 }

/-- `call_ollama_generate` (main.py lines 69–84), with the network abstracted
as a function from the built request to its outcome. On a delivered 4xx/5xx
response, `raise_for_status` raises and the handler re-raises HTTP 500 with
the upstream body text; on a transport failure it re-raises HTTP 500 with the
exception message; on success it returns `resp_json.get("response", "")`. -/
def call_ollama_generate (model prompt : String)
    (upstream : GenerateRequest → UpstreamOutcome) : Except HTTPError Json :=
  match upstream (mkGenerateRequest model prompt) with
  | UpstreamOutcome.netErr msg => Except.error ⟨500, commPrefix ++ msg⟩
  | UpstreamOutcome.ok r =>
      if statusRaises r.status then Except.error ⟨500, commPrefix ++ r.text⟩
      else Except.ok (r.json.getD "response" (Json.str ""))

/-- Which upstream endpoints a multimodal call attempted, in order. -/
inductive Attempt where
  | generate : Attempt
  | chat : Attempt
deriving DecidableEq, Repr

/-- Result extraction in `call_ollama_multimodal` (main.py lines 124–131):
try a top-level "response" field, then "message"."content", else return
`str(resp_json)`. Total — it never fails. -/
def extract_result (j : Json) : Json :=
  match j.getField "response" with
  | some v => v
  | none =>
      match j.getField "message" with
      | some m =>
          match m.getField "content" with
          | some c => c
          | none => Json.str j.stringify
      | none => Json.str j.stringify

/-- `call_ollama_multimodal` (main.py lines 87–139), abstracting the two
possible outbound calls by their outcomes: `primary` is the POST to
`/api/generate`, `fallback` the POST to `/api/chat`, issued only when the
primary response has status exactly 400. The first component records which
endpoints were attempted, in order. -/
def call_ollama_multimodal (primary fallback : UpstreamOutcome) :
    List Attempt × Except HTTPError Json :=
  match primary with
  | UpstreamOutcome.netErr msg =>
      ([Attempt.generate], Except.error ⟨500, commPrefix ++ msg⟩)
  | UpstreamOutcome.ok r =>
      if r.status = 400 then
        match fallback with
        | UpstreamOutcome.netErr msg =>
            ([Attempt.generate, Attempt.chat], Except.error ⟨500, commPrefix ++ msg⟩)
        | UpstreamOutcome.ok r2 =>
            ([Attempt.generate, Attempt.chat],
             if statusRaises r2.status then Except.error ⟨500, commPrefix ++ r2.text⟩
             else Except.ok (extract_result r2.json))
      else
        ([Attempt.generate],
         if statusRaises r.status then Except.error ⟨500, commPrefix ++ r.text⟩
         else Except.ok (extract_result r.json))

/-- `list_models` (main.py lines 185–196): GET `/api/tags`; on success return
`data.get("models", [])`, on failure HTTP 500 with the fetch-error prefix. -/
def list_models (upstream : UpstreamOutcome) : Except HTTPError Json :=
  match upstream with
  | UpstreamOutcome.netErr msg =>
      Except.error ⟨500, "Error fetching models: " ++ msg⟩
  | UpstreamOutcome.ok r =>
      if statusRaises r.status then
        Except.error ⟨500, "Error fetching models: " ++ r.text⟩
      else Except.ok (r.json.getD "models" (Json.arr []))

/-- `download_model` (main.py lines 200–213): POST `/api/pull`; on success
return the confirmation message, on failure HTTP 500. -/
def download_model (model_name : String) (upstream : UpstreamOutcome) :
    Except HTTPError String :=
  match upstream with
  | UpstreamOutcome.netErr msg =>
      Except.error ⟨500, "Error downloading model: " ++ msg⟩
  | UpstreamOutcome.ok r =>
      if statusRaises r.status then
        Except.error ⟨500, "Error downloading model: " ++ r.text⟩
      else Except.ok ("Model " ++ pyQuote ++ model_name ++ pyQuote ++ " downloaded successfully")

/-- A conversation message (`Message` pydantic model, main.py lines 53–55). -/
structure Message where
  role : String
  content : String
deriving DecidableEq, Repr

/-- A conversation (`Conversation` pydantic model, main.py lines 58–60). -/
structure Conversation where
  id : String
  messages : List Message
deriving DecidableEq, Repr

/-- The process-wide `conversations` dict (main.py line 63), modelled as an
association list in insertion order with unique keys. -/
abbrev Store : Type := List (String × Conversation)

/-- Dict key lookup: `conversations[conv_id]` / `conv_id in conversations`. -/
def findConv : Store → String → Option Conversation
  | [], _ => none
  | (k, c) :: rest, id => if k = id then some c else findConv rest id

/-- In-place append of a message to the conversation stored under `id`
(`conversation.messages.append(...)`, mutating the stored object). -/
def appendMsg (s : Store) (id : String) (m : Message) : Store :=
  s.map (fun kc =>
    (kc.1, if kc.1 = id then ⟨kc.2.id, kc.2.messages ++ [m]⟩ else kc.2))

/-- `start_conversation` (main.py lines 216–222): a duplicate id raises
HTTP 400 and leaves the dict unchanged; a fresh id inserts an empty
`Conversation` (new dict keys go at the end in insertion order) and returns
the confirmation message with status 201. -/
def start_conversation (s : Store) (conv_id : String) :
    Store × Except HTTPError String :=
  if (findConv s conv_id).isSome then
    (s, Except.error ⟨400, "Conversation ID already exists"⟩)
  else
    (s ++ [(conv_id, ⟨conv_id, []⟩)],
     Except.ok ("Conversation " ++ pyQuote ++ conv_id ++ pyQuote ++ " started"))

/-- `get_conversation` (main.py lines 240–244): a missing id raises HTTP 404;
otherwise the stored conversation is returned. Read-only. -/
def get_conversation (s : Store) (conv_id : String) :
    Except HTTPError Conversation :=
  match findConv s conv_id with
  | none => Except.error ⟨404, "Conversation not found"⟩
  | some c => Except.ok c

/-- `add_message` (main.py lines 225–237): a missing id raises HTTP 404;
otherwise the user prompt is appended first, then `call_ollama_generate` is
invoked — abstracted here as `backend model prompt`, returning either the
generated text or the raised `HTTPException` — and on success the assistant
reply is appended. When the backend raises, the exception propagates after
the user message was already appended: the first component is the dict as
left behind on every path. -/
def add_message (s : Store) (conv_id : String) (prompt model : String)
    (backend : String → String → Except HTTPError String) :
    Store × Except HTTPError String :=
  if (findConv s conv_id).isNone then
    (s, Except.error ⟨404, "Conversation not found"⟩)
  else
    let s1 := appendMsg s conv_id ⟨"user", prompt⟩
    match backend model prompt with
    | Except.error e => (s1, Except.error e)
    | Except.ok generated_text =>
        (appendMsg s1 conv_id ⟨"assistant", generated_text⟩,
         Except.ok generated_text)

/-- Deletion step of the `finally` block in `generate_multimodal`
(main.py lines 176–181): `if os.path.exists(temp): os.remove(temp)`,
over a filesystem modelled as the list of existing file names. -/
def removeTempFile (fs : List String) (temp_filename : String) : List String :=
  if temp_filename ∈ fs then fs.filter (fun f => f ≠ temp_filename) else fs

/-- `generate_multimodal` (main.py lines 155–181), tracking only the
filesystem effects: the handler writes the uploaded bytes to the fresh
temp file, runs the multimodal call — whose outcome (success or raised
`HTTPException`) is `call` — and the `finally` block deletes the temp file
on every exit path before the result or exception leaves the handler. -/
def generate_multimodal (fs : List String) (temp_filename : String)
    (call : Except HTTPError Json) : List String × Except HTTPError Json :=
  let fs1 := if temp_filename ∈ fs then fs else fs ++ [temp_filename]
  (removeTempFile fs1 temp_filename, call)

/-- Store well-formedness: every stored conversation carries its key as its
identifier, and no two entries share a key. -/
def StoreWF (s : Store) : Prop :=
  (∀ kc ∈ s, kc.2.id = kc.1) ∧ (s.map Prod.fst).Nodup

theorem findConv_append_left {s : Store} {k : String} {c : Conversation}
    (t : Store) (h : findConv s k = some c) : findConv (s ++ t) k = some c := by
  induction s with
  | nil => simp [findConv] at h
  | cons kc rest ih =>
      obtain ⟨k1, c1⟩ := kc
      by_cases hk : k1 = k
      · simpa [findConv, hk] using h
      · simp only [List.cons_append, findConv, if_neg hk] at h ⊢
        exact ih h

theorem findConv_append_none {s : Store} {k : String} (t : Store)
    (h : findConv s k = none) : findConv (s ++ t) k = findConv t k := by
  induction s with
  | nil => simp
  | cons kc rest ih =>
      obtain ⟨k1, c1⟩ := kc
      by_cases hk : k1 = k
      · simp [findConv, hk] at h
      · simp only [findConv, if_neg hk] at h
        simpa only [List.cons_append, findConv, if_neg hk] using ih h

theorem findConv_eq_none_iff (s : Store) (k : String) :
    findConv s k = none ↔ k ∉ s.map Prod.fst := by
  induction s with
  | nil => simp [findConv]
  | cons kc rest ih =>
      obtain ⟨k1, c1⟩ := kc
      by_cases hk : k1 = k
      · simp [findConv, hk, ih]
      · simp [findConv, hk, ih]
        tauto

theorem findConv_appendMsg (s : Store) (id k : String) (m : Message) :
    findConv (appendMsg s id m) k =
      if k = id then
        (findConv s k).map (fun c => ⟨c.id, c.messages ++ [m]⟩)
      else findConv s k := by
  induction s with
  | nil => by_cases h : k = id <;> simp [appendMsg, findConv, h]
  | cons kc rest ih =>
      obtain ⟨k1, c1⟩ := kc
      simp only [appendMsg, List.map_cons] at ih ⊢
      by_cases h2 : k1 = k
      · subst h2
        by_cases h1 : k1 = id <;> simp [findConv, h1]
      · by_cases h3 : k = id
        · subst h3
          simp [findConv, h2, ih]
        · simp [findConv, h2, h3, ih]

theorem appendMsg_keys (s : Store) (id : String) (m : Message) :
    (appendMsg s id m).map Prod.fst = s.map Prod.fst := by
  unfold appendMsg
  rw [List.map_map]
  rfl

theorem StoreWF_appendMsg {s : Store} (id : String) (m : Message)
    (h : StoreWF s) : StoreWF (appendMsg s id m) := by
  obtain ⟨hid, hnd⟩ := h
  refine ⟨?_, by rw [appendMsg_keys]; exact hnd⟩
  intro kc hkc
  simp only [appendMsg, List.mem_map] at hkc
  obtain ⟨⟨k1, c1⟩, hmem, heq⟩ := hkc
  subst heq
  have h1 := hid (k1, c1) hmem
  by_cases hk : k1 = id
  · simpa [hk] using h1
  · simpa [hk] using h1

theorem appendMsg_preserves {s : Store} {k : String} {c : Conversation}
    (id : String) (m : Message) (h : findConv s k = some c) :
    ∃ cN, findConv (appendMsg s id m) k = some cN ∧
      cN.id = c.id ∧ c.messages.length ≤ cN.messages.length := by
  by_cases hk : k = id
  · refine ⟨⟨c.id, c.messages ++ [m]⟩, ?_, rfl, by simp⟩
    rw [findConv_appendMsg, if_pos hk, h]
    rfl
  · refine ⟨c, ?_, rfl, le_refl _⟩
    rw [findConv_appendMsg, if_neg hk]
    exact h

/-- C1: For every multimodal generation call, if the primary generate-style
request returns HTTP 400, the client attempts the chat-style fallback request
exactly once before returning a result or failing; if the primary request
returns any other non-success (4xx/5xx) status such as HTTP 500, the fallback
is never attempted and the call fails with UpstreamError (HTTP 500 carrying
the upstream body) directly. -/
theorem multimodal_fallback_policy (p : HttpResponse) (fb : UpstreamOutcome) :
    (p.status = 400 →
      (call_ollama_multimodal (UpstreamOutcome.ok p) fb).1
        = [Attempt.generate, Attempt.chat]) ∧
    (400 ≤ p.status → p.status < 600 → p.status ≠ 400 →
      (call_ollama_multimodal (UpstreamOutcome.ok p) fb).1 = [Attempt.generate] ∧
      (call_ollama_multimodal (UpstreamOutcome.ok p) fb).2
        = Except.error ⟨500, commPrefix ++ p.text⟩) := by
  constructor
  · intro h400
    cases fb <;> simp [call_ollama_multimodal, h400]
  · intro h1 h2 h3
    simp [call_ollama_multimodal, h3, statusRaises, h1, h2]

/-- Closed instance of `multimodal_fallback_policy`: a 400 primary response
triggers exactly one chat-endpoint attempt; a 500 primary response is final,
with no fallback attempt and an immediate HTTP 500 error. -/
theorem multimodal_fallback_policy_witness :
    (call_ollama_multimodal (UpstreamOutcome.ok ⟨400, "bad request", Json.obj []⟩)
        (UpstreamOutcome.ok ⟨200, "", Json.obj [("response", Json.str "ok")]⟩)).1
      = [Attempt.generate, Attempt.chat] ∧
    (call_ollama_multimodal (UpstreamOutcome.ok ⟨500, "boom", Json.obj []⟩)
        (UpstreamOutcome.ok ⟨200, "", Json.obj []⟩)).1 = [Attempt.generate] ∧
    (call_ollama_multimodal (UpstreamOutcome.ok ⟨500, "boom", Json.obj []⟩)
        (UpstreamOutcome.ok ⟨200, "", Json.obj []⟩)).2
      = Except.error ⟨500, commPrefix ++ "boom"⟩ := by
  refine ⟨?_, ?_, ?_⟩
  · exact (multimodal_fallback_policy ⟨400, "bad request", Json.obj []⟩
      (UpstreamOutcome.ok ⟨200, "", Json.obj [("response", Json.str "ok")]⟩)).1 rfl
  · exact ((multimodal_fallback_policy ⟨500, "boom", Json.obj []⟩
      (UpstreamOutcome.ok ⟨200, "", Json.obj []⟩)).2 (by decide) (by decide) (by decide)).1
  · exact ((multimodal_fallback_policy ⟨500, "boom", Json.obj []⟩
      (UpstreamOutcome.ok ⟨200, "", Json.obj []⟩)).2 (by decide) (by decide) (by decide)).2

/-- C2: For every successful multimodal response body, the result text is
extracted by trying a top-level "response" field first, then a nested
"message"."content" field; if neither is present the entire response is
stringified and returned, and extraction never fails. Concretely:
a body with "response" bound to "x" yields "x"; a body with only
"message"."content" bound to "y" yields "y"; the empty object yields its
stringification. -/
theorem multimodal_extraction (j : Json) (x y : String) :
    (j.getField "response" = some (Json.str x) → extract_result j = Json.str x) ∧
    (j.getField "response" = none →
      (∃ m, j.getField "message" = some m ∧
        m.getField "content" = some (Json.str y)) →
      extract_result j = Json.str y) ∧
    (j.getField "response" = none →
      (∀ m, j.getField "message" = some m → m.getField "content" = none) →
      extract_result j = Json.str j.stringify) ∧
    extract_result (Json.obj [("response", Json.str x)]) = Json.str x ∧
    extract_result (Json.obj [("message", Json.obj [("content", Json.str y)])])
      = Json.str y ∧
    extract_result (Json.obj []) = Json.str "\x7b\x7d" := by
  refine ⟨?_, ?_, ?_, rfl, rfl, rfl⟩
  · intro h
    simp [extract_result, h]
  · intro h ⟨m, hm, hc⟩
    simp [extract_result, h, hm, hc]
  · intro h hm
    cases hmsg : j.getField "message" with
    | none => simp [extract_result, h, hmsg]
    | some m => simp [extract_result, h, hmsg, hm m hmsg]

/-- Closed instance of `multimodal_extraction` at the three bodies named by
the specification. -/
theorem multimodal_extraction_witness :
    extract_result (Json.obj [("response", Json.str "x")]) = Json.str "x" ∧
    extract_result (Json.obj [("message", Json.obj [("content", Json.str "y")])])
      = Json.str "y" ∧
    extract_result (Json.obj []) = Json.str ((Json.obj []).stringify) := by
  refine ⟨?_, ?_, ?_⟩
  · exact (multimodal_extraction (Json.obj [("response", Json.str "x")]) "x" "y").1 rfl
  · exact (multimodal_extraction
      (Json.obj [("message", Json.obj [("content", Json.str "y")])]) "x" "y").2.1 rfl
      ⟨Json.obj [("content", Json.str "y")], rfl, rfl⟩
  · exact (multimodal_extraction (Json.obj []) "x" "y").2.2.1 rfl
      (by intro m hm; simp [Json.getField, lookupField] at hm)

/-- C6: Every text-generation call sends a non-streaming request
(stream false) with a 120-second upper bound, and on a successful backend
response the "response" field is extracted and returned; if that field is
absent the call returns empty text rather than failing. -/
theorem generate_text_spec (model prompt s : String)
    (upstream : GenerateRequest → UpstreamOutcome) (r : HttpResponse) :
    (mkGenerateRequest model prompt).stream = false ∧
    (mkGenerateRequest model prompt).timeout = 120 ∧
    (upstream (mkGenerateRequest model prompt) = UpstreamOutcome.ok r →
      r.status < 400 →
      ((r.json.getField "response" = some (Json.str s) →
          call_ollama_generate model prompt upstream = Except.ok (Json.str s)) ∧
       (r.json.getField "response" = none →
          call_ollama_generate model prompt upstream = Except.ok (Json.str "")))) := by
  refine ⟨rfl, rfl, ?_⟩
  intro hok hs
  have hnr : ¬ statusRaises r.status := by
    unfold statusRaises
    omega
  constructor
  · intro hf
    simp [call_ollama_generate, hok, hnr, Json.getD, hf]
  · intro hf
    simp [call_ollama_generate, hok, hnr, Json.getD, hf]

/-- Closed instance of `generate_text_spec`: the built request is
non-streaming with a 120-second bound, a present "response" field is
returned, and an absent one yields the empty string. -/
theorem generate_text_spec_witness :
    (mkGenerateRequest "llama3" "hi").stream = false ∧
    (mkGenerateRequest "llama3" "hi").timeout = 120 ∧
    call_ollama_generate "llama3" "hi"
      (fun _ => UpstreamOutcome.ok ⟨200, "", Json.obj [("response", Json.str "hello")]⟩)
      = Except.ok (Json.str "hello") ∧
    call_ollama_generate "llama3" "hi"
      (fun _ => UpstreamOutcome.ok ⟨200, "", Json.obj []⟩)
      = Except.ok (Json.str "") := by
  refine ⟨(generate_text_spec "llama3" "hi" "hello"
      (fun _ => UpstreamOutcome.ok ⟨200, "", Json.obj [("response", Json.str "hello")]⟩)
      ⟨200, "", Json.obj [("response", Json.str "hello")]⟩).1, ?_, ?_, ?_⟩
  · exact (generate_text_spec "llama3" "hi" "hello"
      (fun _ => UpstreamOutcome.ok ⟨200, "", Json.obj [("response", Json.str "hello")]⟩)
      ⟨200, "", Json.obj [("response", Json.str "hello")]⟩).2.1
  · exact ((generate_text_spec "llama3" "hi" "hello"
      (fun _ => UpstreamOutcome.ok ⟨200, "", Json.obj [("response", Json.str "hello")]⟩)
      ⟨200, "", Json.obj [("response", Json.str "hello")]⟩).2.2 rfl (by decide)).1 rfl
  · exact ((generate_text_spec "llama3" "hi" "hello"
      (fun _ => UpstreamOutcome.ok ⟨200, "", Json.obj []⟩)
      ⟨200, "", Json.obj []⟩).2.2 rfl (by decide)).2 rfl

/-- C7 counterexample: a delivered 300-status response is not a 2xx status,
yet `raise_for_status` does not raise for it, so the call succeeds instead of
surfacing an UpstreamError — the claim fails for 3xx statuses. -/
theorem upstream_error_counterexample :
    ¬ (200 ≤ 300 ∧ 300 < 300) ∧
    call_ollama_generate "m" "p"
      (fun _ => UpstreamOutcome.ok ⟨300, "body", Json.obj [("response", Json.str "hi")]⟩)
      = Except.ok (Json.str "hi") := by
  constructor
  · decide
  · rfl

/-- C7 (amended): for every call to the Model Runner Client — text
generation, multimodal generation (either leg), model listing, model pull —
any transport failure or timeout, and any delivered 4xx/5xx status, surfaces
as an HTTP 500 UpstreamError carrying the upstream body text verbatim when a
response exists and the transport error message otherwise. -/
theorem upstream_error_policy (mdl prompt nm msg : String) (r : HttpResponse)
    (fb : UpstreamOutcome) (hr : statusRaises r.status) :
    call_ollama_generate mdl prompt (fun _ => UpstreamOutcome.netErr msg)
      = Except.error ⟨500, commPrefix ++ msg⟩ ∧
    call_ollama_generate mdl prompt (fun _ => UpstreamOutcome.ok r)
      = Except.error ⟨500, commPrefix ++ r.text⟩ ∧
    (call_ollama_multimodal (UpstreamOutcome.netErr msg) fb).2
      = Except.error ⟨500, commPrefix ++ msg⟩ ∧
    (r.status ≠ 400 →
      (call_ollama_multimodal (UpstreamOutcome.ok r) fb).2
        = Except.error ⟨500, commPrefix ++ r.text⟩) ∧
    (∀ p : HttpResponse, p.status = 400 →
      (call_ollama_multimodal (UpstreamOutcome.ok p) (UpstreamOutcome.netErr msg)).2
        = Except.error ⟨500, commPrefix ++ msg⟩ ∧
      (call_ollama_multimodal (UpstreamOutcome.ok p) (UpstreamOutcome.ok r)).2
        = Except.error ⟨500, commPrefix ++ r.text⟩) ∧
    list_models (UpstreamOutcome.netErr msg)
      = Except.error ⟨500, "Error fetching models: " ++ msg⟩ ∧
    list_models (UpstreamOutcome.ok r)
      = Except.error ⟨500, "Error fetching models: " ++ r.text⟩ ∧
    download_model nm (UpstreamOutcome.netErr msg)
      = Except.error ⟨500, "Error downloading model: " ++ msg⟩ ∧
    download_model nm (UpstreamOutcome.ok r)
      = Except.error ⟨500, "Error downloading model: " ++ r.text⟩ := by
  refine ⟨rfl, ?_, rfl, ?_, ?_, rfl, ?_, rfl, ?_⟩
  · simp [call_ollama_generate, hr]
  · intro hne
    simp [call_ollama_multimodal, hne, hr]
  · intro p hp
    refine ⟨?_, ?_⟩
    · simp [call_ollama_multimodal, hp]
    · simp [call_ollama_multimodal, hp, hr]
  · simp [list_models, hr]
  · simp [download_model, hr]

/-- Closed instance of `upstream_error_policy`: a timeout on text
generation, a 500 on text generation, a 502 on the multimodal fallback leg
after a 400 primary, and a timeout on model pull all surface as HTTP 500
errors carrying the upstream detail. -/
theorem upstream_error_policy_witness :
    call_ollama_generate "m" "p" (fun _ => UpstreamOutcome.netErr "timed out")
      = Except.error ⟨500, commPrefix ++ "timed out"⟩ ∧
    call_ollama_generate "m" "p"
      (fun _ => UpstreamOutcome.ok ⟨500, "boom", Json.obj []⟩)
      = Except.error ⟨500, commPrefix ++ "boom"⟩ ∧
    (call_ollama_multimodal (UpstreamOutcome.ok ⟨400, "", Json.obj []⟩)
        (UpstreamOutcome.ok ⟨502, "bad gateway", Json.obj []⟩)).2
      = Except.error ⟨500, commPrefix ++ "bad gateway"⟩ ∧
    download_model "llava" (UpstreamOutcome.netErr "timed out")
      = Except.error ⟨500, "Error downloading model: " ++ "timed out"⟩ := by
  have h1 := upstream_error_policy "m" "p" "llava" "timed out"
    ⟨500, "boom", Json.obj []⟩ (UpstreamOutcome.ok ⟨200, "", Json.obj []⟩) (by decide)
  have h2 := upstream_error_policy "m" "p" "llava" "timed out"
    ⟨502, "bad gateway", Json.obj []⟩ (UpstreamOutcome.ok ⟨200, "", Json.obj []⟩)
    (by decide)
  exact ⟨h1.1, h1.2.1, (h2.2.2.2.2.1 ⟨400, "", Json.obj []⟩ rfl).2, h1.2.2.2.2.2.2.2.1⟩

/-- C8: For every multimodal request, the temporary upload file created for
the request is absent from the filesystem after the handler finishes, on
every exit path — success or raised error alike — and the call result is
passed through unchanged. -/
theorem temp_file_cleanup (fs : List String) (temp_filename : String)
    (call : Except HTTPError Json) :
    temp_filename ∉ (generate_multimodal fs temp_filename call).1 ∧
    (generate_multimodal fs temp_filename call).2 = call := by
  refine ⟨?_, rfl⟩
  intro hmem
  unfold generate_multimodal removeTempFile at hmem
  by_cases h : temp_filename ∈ fs
  · simp only [if_pos h] at hmem
    rcases List.mem_filter.mp hmem with ⟨-, hne⟩
    simp at hne
  · have hmem2 : temp_filename ∈ fs ++ [temp_filename] := by simp
    simp only [if_neg h, if_pos hmem2] at hmem
    rcases List.mem_filter.mp hmem with ⟨-, hne⟩
    simp at hne

/-- C3: Creating a conversation under a fresh id succeeds, inserts a
conversation with an empty message sequence under that id (the store grows by
one entry); creating again under a taken id fails with HTTP 400
AlreadyExists and leaves the store unchanged. -/
theorem conversation_create_spec (s : Store) (id : String) :
    (findConv s id = none →
      start_conversation s id
        = (s ++ [(id, ⟨id, []⟩)],
           Except.ok ("Conversation " ++ pyQuote ++ id ++ pyQuote ++ " started")) ∧
      findConv (start_conversation s id).1 id = some ⟨id, []⟩ ∧
      (start_conversation s id).1.length = s.length + 1) ∧
    ((findConv s id).isSome →
      start_conversation s id
        = (s, Except.error ⟨400, "Conversation ID already exists"⟩)) := by
  constructor
  · intro h
    have hns : ¬ (findConv s id).isSome = true := by simp [h]
    refine ⟨by simp [start_conversation, hns], ?_, by simp [start_conversation, hns]⟩
    have h1 : (start_conversation s id).1 = s ++ [(id, ⟨id, []⟩)] := by
      simp [start_conversation, hns]
    rw [h1, findConv_append_none _ h]
    simp [findConv]
  · intro h
    simp [start_conversation, h]

/-- Closed instance of `conversation_create_spec`: creating "abc" in the
empty store succeeds with an empty message sequence; creating "abc" again
fails with HTTP 400 and the store is unchanged. -/
theorem conversation_create_spec_witness :
    start_conversation [] "abc"
      = ([("abc", ⟨"abc", []⟩)],
         Except.ok ("Conversation " ++ pyQuote ++ "abc" ++ pyQuote ++ " started")) ∧
    start_conversation [("abc", ⟨"abc", []⟩)] "abc"
      = ([("abc", ⟨"abc", []⟩)],
         Except.error ⟨400, "Conversation ID already exists"⟩) := by
  constructor
  · have h := ((conversation_create_spec [] "abc").1 rfl).1
    simpa using h
  · exact (conversation_create_spec [("abc", ⟨"abc", []⟩)] "abc").2 rfl

/-- C4: For an id absent from the store, reading the conversation and
appending a message to it both fail with HTTP 404 NotFound, and the failed
append leaves the store unchanged (the read is pure). -/
theorem conversation_missing_spec (s : Store) (id prompt mdl : String)
    (backend : String → String → Except HTTPError String)
    (h : findConv s id = none) :
    get_conversation s id = Except.error ⟨404, "Conversation not found"⟩ ∧
    add_message s id prompt mdl backend
      = (s, Except.error ⟨404, "Conversation not found"⟩) := by
  constructor
  · simp [get_conversation, h]
  · simp [add_message, h]

/-- Closed instance of `conversation_missing_spec` at the empty store. -/
theorem conversation_missing_spec_witness :
    get_conversation [] "x" = Except.error ⟨404, "Conversation not found"⟩ ∧
    add_message [] "x" "p" "m" (fun _ _ => Except.ok "r")
      = ([], Except.error ⟨404, "Conversation not found"⟩) :=
  conversation_missing_spec [] "x" "p" "m" (fun _ _ => Except.ok "r") rfl

/-- C5: After a successful exchange with prompt `prompt` answered `r`, the
conversation's message sequence ends with exactly the user/assistant pair in
that order; concretely, starting "abc" then reading it gives the empty
sequence, and after an exchange "hi"/"hello" reading it gives exactly the
two messages in order. -/
theorem exchange_appends_pair (s : Store) (id prompt mdl r : String)
    (backend : String → String → Except HTTPError String) (c : Conversation)
    (hc : findConv s id = some c) (hb : backend mdl prompt = Except.ok r) :
    (add_message s id prompt mdl backend).2 = Except.ok r ∧
    findConv (add_message s id prompt mdl backend).1 id
      = some ⟨c.id, c.messages ++ [⟨"user", prompt⟩, ⟨"assistant", r⟩]⟩ ∧
    get_conversation (start_conversation [] "abc").1 "abc"
      = Except.ok ⟨"abc", []⟩ ∧
    get_conversation
      (add_message (start_conversation [] "abc").1 "abc" "hi" "llama3"
        (fun _ _ => Except.ok "hello")).1 "abc"
      = Except.ok ⟨"abc", [⟨"user", "hi"⟩, ⟨"assistant", "hello"⟩]⟩ := by
  refine ⟨by simp [add_message, hc, hb], ?_, rfl, rfl⟩
  have hred : (add_message s id prompt mdl backend).1
      = appendMsg (appendMsg s id ⟨"user", prompt⟩) id ⟨"assistant", r⟩ := by
    simp [add_message, hc, hb]
  rw [hred, findConv_appendMsg, if_pos rfl, findConv_appendMsg, if_pos rfl, hc]
  simp

/-- Closed instance of `exchange_appends_pair` on the one-conversation
store. -/
theorem exchange_appends_pair_witness :
    (add_message [("abc", ⟨"abc", []⟩)] "abc" "hi" "llama3"
        (fun _ _ => Except.ok "hello")).2 = Except.ok "hello" ∧
    findConv (add_message [("abc", ⟨"abc", []⟩)] "abc" "hi" "llama3"
        (fun _ _ => Except.ok "hello")).1 "abc"
      = some ⟨"abc", [⟨"user", "hi"⟩, ⟨"assistant", "hello"⟩]⟩ := by
  have h := exchange_appends_pair [("abc", ⟨"abc", []⟩)] "abc" "hi" "llama3"
    "hello" (fun _ _ => Except.ok "hello") ⟨"abc", []⟩ rfl rfl
  exact ⟨h.1, by simpa using h.2.1⟩

/-- C9: The store invariants hold under every operation: each stored
conversation's identifier stays equal to its key, key uniqueness is
preserved, and on top of a well-formed store every conversation's message
sequence keeps its identifier and never shrinks under create or append. -/
theorem store_invariants (s : Store) (id prompt mdl : String)
    (backend : String → String → Except HTTPError String) (hwf : StoreWF s) :
    StoreWF (start_conversation s id).1 ∧
    StoreWF (add_message s id prompt mdl backend).1 ∧
    (∀ k c, findConv s k = some c →
      ∃ cN, findConv (start_conversation s id).1 k = some cN ∧
        cN.id = c.id ∧ c.messages.length ≤ cN.messages.length) ∧
    (∀ k c, findConv s k = some c →
      ∃ cN, findConv (add_message s id prompt mdl backend).1 k = some cN ∧
        cN.id = c.id ∧ c.messages.length ≤ cN.messages.length) := by
  refine ⟨?_, ?_, ?_, ?_⟩
  · cases hfc : findConv s id with
    | some c0 => simpa [start_conversation, hfc] using hwf
    | none =>
        have hid : id ∉ s.map Prod.fst := (findConv_eq_none_iff s id).mp hfc
        obtain ⟨h1, h2⟩ := hwf
        have hred : (start_conversation s id).1 = s ++ [(id, ⟨id, []⟩)] := by
          simp [start_conversation, hfc]
        rw [hred]
        refine ⟨?_, ?_⟩
        · intro kc hkc
          rcases List.mem_append.mp hkc with hmem | hmem
          · exact h1 kc hmem
          · simp at hmem
            subst hmem
            rfl
        · rw [List.map_append]
          simp [List.nodup_append, h2, hid]
  · cases hfc : findConv s id with
    | none => simpa [add_message, hfc] using hwf
    | some c0 =>
        cases hb : backend mdl prompt with
        | error e =>
            simpa [add_message, hfc, hb] using
              StoreWF_appendMsg id ⟨"user", prompt⟩ hwf
        | ok t =>
            simpa [add_message, hfc, hb] using
              StoreWF_appendMsg id ⟨"assistant", t⟩
                (StoreWF_appendMsg id ⟨"user", prompt⟩ hwf)
  · intro k c hk
    cases hfc : findConv s id with
    | some c0 => exact ⟨c, by simpa [start_conversation, hfc] using hk, rfl, le_refl _⟩
    | none =>
        refine ⟨c, ?_, rfl, le_refl _⟩
        have hred : (start_conversation s id).1 = s ++ [(id, ⟨id, []⟩)] := by
          simp [start_conversation, hfc]
        rw [hred]
        exact findConv_append_left _ hk
  · intro k c hk
    cases hfc : findConv s id with
    | none => exact ⟨c, by simpa [add_message, hfc] using hk, rfl, le_refl _⟩
    | some c0 =>
        cases hb : backend mdl prompt with
        | error e =>
            obtain ⟨c1, hc1, hid1, hlen1⟩ :=
              appendMsg_preserves id ⟨"user", prompt⟩ hk
            refine ⟨c1, ?_, hid1, hlen1⟩
            simpa [add_message, hfc, hb] using hc1
        | ok t =>
            obtain ⟨c1, hc1, hid1, hlen1⟩ :=
              appendMsg_preserves id ⟨"user", prompt⟩ hk
            obtain ⟨c2, hc2, hid2, hlen2⟩ :=
              appendMsg_preserves id ⟨"assistant", t⟩ hc1
            refine ⟨c2, ?_, hid2.trans hid1, hlen1.trans hlen2⟩
            simpa [add_message, hfc, hb] using hc2

/-- Closed instance of `store_invariants`: both operations applied to a
well-formed one-conversation store leave it well-formed. -/
theorem store_invariants_witness :
    StoreWF (start_conversation [("a", ⟨"a", []⟩)] "a").1 ∧
    StoreWF (add_message [("a", ⟨"a", []⟩)] "a" "hi" "m"
      (fun _ _ => Except.ok "yo")).1 := by
  have h := store_invariants [("a", ⟨"a", []⟩)] "a" "hi" "m"
    (fun _ _ => Except.ok "yo")
    (by constructor
        · intro kc hkc
          simp at hkc
          subst hkc
          rfl
        · simp)
  exact ⟨h.1, h.2.1⟩

/-- C10: If the backend call of a message exchange fails, the user prompt
stays appended: the exchange returns the backend's error, the store is the
one with only the user message added, and the conversation's sequence grew
by exactly one trailing user message with no assistant reply. -/
theorem exchange_failure_keeps_prompt (s : Store) (id prompt mdl : String)
    (backend : String → String → Except HTTPError String) (c : Conversation)
    (e : HTTPError) (hc : findConv s id = some c)
    (hb : backend mdl prompt = Except.error e) :
    add_message s id prompt mdl backend
      = (appendMsg s id ⟨"user", prompt⟩, Except.error e) ∧
    findConv (add_message s id prompt mdl backend).1 id
      = some ⟨c.id, c.messages ++ [⟨"user", prompt⟩]⟩ ∧
    (c.messages ++ [(⟨"user", prompt⟩ : Message)]).length
      = c.messages.length + 1 := by
  have h1 : add_message s id prompt mdl backend
      = (appendMsg s id ⟨"user", prompt⟩, Except.error e) := by
    simp [add_message, hc, hb]
  refine ⟨h1, ?_, by simp⟩
  rw [h1, findConv_appendMsg, if_pos rfl, hc]
  rfl

/-- Closed instance of `exchange_failure_keeps_prompt`: a failing backend
leaves the one-conversation store with exactly the trailing user message. -/
theorem exchange_failure_keeps_prompt_witness :
    add_message [("abc", ⟨"abc", []⟩)] "abc" "hi" "m"
        (fun _ _ => Except.error ⟨500, "down"⟩)
      = (appendMsg [("abc", ⟨"abc", []⟩)] "abc" ⟨"user", "hi"⟩,
         Except.error ⟨500, "down"⟩) ∧
    findConv (add_message [("abc", ⟨"abc", []⟩)] "abc" "hi" "m"
        (fun _ _ => Except.error ⟨500, "down"⟩)).1 "abc"
      = some ⟨"abc", [⟨"user", "hi"⟩]⟩ := by
  have h := exchange_failure_keeps_prompt [("abc", ⟨"abc", []⟩)] "abc" "hi" "m"
    (fun _ _ => Except.error ⟨500, "down"⟩) ⟨"abc", []⟩ ⟨500, "down"⟩ rfl rfl
  exact ⟨h.1, by simpa using h.2.1⟩
